import Mathlib

/-!
Shallow embedding of `src/src/ipc/posix_ipc.cc` (namespace `ipc`) from the
southbear-club/co repository, together with proofs about the claims of its
specification.

Modelling conventions:
* Machine integers (`int`, `time_t`, signed results) are `Int`; sizes
  (`size_t`) are `Nat`.  C integer division/modulo on the non-negative
  operands the source actually uses coincide with `Int`'s `/` and `%`.
* Each operation returns its result paired with the list of OS syscalls it
  issued, in order, carrying the argument values the source passes.  The
  outcomes of the syscalls themselves (select's return value, write's
  return value, ...) are inputs (oracles) to the embedded function, since
  they are decided by the kernel, not by this code.
* Functions that `throw` in C++ are modelled with `Option`: `none` means
  the constructor threw and no usable instance exists.
-/

/-- Direction of a readiness probe: which `fd_set` the descriptor is put in. -/
inductive Direction where
  | read
  | write
  deriving Repr, DecidableEq

/-- The syscalls the embedded code can issue, with the argument values the
source passes to them. -/
inductive Syscall where
  | select (nfds : Int) (dir : Direction) (timeout : Option (Int × Int)) : Syscall
  | writeFd (fd : Int) (len : Nat) : Syscall
  | readFd (fd : Int) (len : Nat) : Syscall
  | mkfifo (flags : Int) : Syscall
  | openPath (flags : Int) : Syscall
  | mq_open (oflag : Int) : Syscall
  | mq_send (fd : Int) (len : Nat) (prio : Nat) : Syscall
  | mq_timedsend (fd : Int) (len : Nat) (prio : Nat) (deadline : Int × Int) : Syscall
  | mq_receive (fd : Int) (buflen : Nat) : Syscall
  | mq_timedreceive (fd : Int) (buflen : Nat) (deadline : Int × Int) : Syscall
  | mq_close (fd : Int) : Syscall
  | mq_unlink : Syscall
  | shm_open (oflag : Int) : Syscall
  | shm_unlink : Syscall
  | closeFd (fd : Int) : Syscall
  | sem_close : Syscall
  | sem_unlink : Syscall
  | sem_destroy : Syscall
  | munmap : Syscall
  deriving Repr, DecidableEq

/-! ### Open-flag constants (Linux `<fcntl.h>` values) -/

def O_RDONLY : Nat := 0
def O_WRONLY : Nat := 1
def O_RDWR : Nat := 2
def O_CREAT : Nat := 64
def O_TRUNC : Nat := 512
def O_APPEND : Nat := 1024

def IPC_INVALID_FD : Int := -1

/-- Value of the glibc `<bits/confname.h>` constant `_SC_MQ_PRIO_MAX` (a
`sysconf` index), which the source passes as the message-priority argument
of `mq_send`/`mq_timedsend`. -/
def SC_MQ_PRIO_MAX : Nat := 28

/-- `ipc::trans_mode` (posix_ipc.cc lines 29-43): maps a mode character to
an open-flags combination, `-1` for any unrecognized character. -/
def trans_mode (mode : Char) : Int :=
  if mode = 'r' then Int.ofNat O_RDONLY
  else if mode = 'a' then Int.ofNat (O_WRONLY ||| O_CREAT ||| O_APPEND)
  else if mode = 'w' then Int.ofNat (O_WRONLY ||| O_CREAT ||| O_TRUNC)
  else if mode = 'm' then Int.ofNat (O_WRONLY ||| O_CREAT)
  else if mode = 'd' then Int.ofNat (O_RDWR ||| O_CREAT ||| O_APPEND)
  else -1

/-! ### Readiness prober (`wait_write` / `wait_read`) -/

/-- Outcome of one `select` call, as the kernel reports it: the return
value and whether `FD_ISSET(fd, &fds)` holds on the probed descriptor
afterwards. -/
structure SelectOutcome where
  ret : Int
  isSet : Bool
  deriving Repr, DecidableEq

/-- The `timeval` argument the source builds for `select`: `nullptr`
(`none`) when `wait < 0`; otherwise `tv_sec = wait / 1000`,
`tv_usec = wait % 1000 * 1000` (posix_ipc.cc lines 71-76). -/
def select_timeout (wait : Int) : Option (Int × Int) :=
  if wait < 0 then none else some (wait / 1000, wait % 1000 * 1000)

/-- `ipc::wait_write` (posix_ipc.cc lines 65-95): single-descriptor
`select` on the write set; `-1` if `select` failed, `0` on timeout or when
the descriptor is not in the signaled set, `1` when it is. -/
def wait_write (fd wait : Int) (sel : SelectOutcome) : Int × List Syscall :=
  ((if sel.ret < 0 then -1
    else if sel.ret = 0 then 0
    else if sel.isSet then 1
    else 0),
   [Syscall.select (fd + 1) Direction.write (select_timeout wait)])

/-- `ipc::wait_read` (posix_ipc.cc lines 104-130): identical to
`wait_write` but probes the read set. -/
def wait_read (fd wait : Int) (sel : SelectOutcome) : Int × List Syscall :=
  ((if sel.ret < 0 then -1
    else if sel.ret = 0 then 0
    else if sel.isSet then 1
    else 0),
   [Syscall.select (fd + 1) Direction.read (select_timeout wait)])

/-! ### Guarded I/O (`ipc::write` / `ipc::read`) -/

/-- `ipc::write` (posix_ipc.cc lines 132-142): probe writability under the
timeout; on `1` issue one `::write` and return its result `wres` verbatim;
on a negative probe return `-1`; otherwise return `0`. -/
def ipc_write (fd : Int) (len : Nat) (wait : Int) (sel : SelectOutcome)
    (wres : Int) : Int × List Syscall :=
  let p := wait_write fd wait sel
  if p.1 = 1 then (wres, p.2 ++ [Syscall.writeFd fd len])
  else if p.1 < 0 then (-1, p.2)
  else (0, p.2)

/-- `ipc::read` (posix_ipc.cc lines 144-154): symmetric to `ipc_write`. -/
def ipc_read (fd : Int) (len : Nat) (wait : Int) (sel : SelectOutcome)
    (rres : Int) : Int × List Syscall :=
  let p := wait_read fd wait sel
  if p.1 = 1 then (rres, p.2 ++ [Syscall.readFd fd len])
  else if p.1 < 0 then (-1, p.2)
  else (0, p.2)

/-- Number of `::write` syscalls in a trace. -/
def countWrites (tr : List Syscall) : Nat :=
  (tr.filter fun s => match s with | Syscall.writeFd _ _ => true | _ => false).length

/-- Number of `::read` syscalls in a trace. -/
def countReads (tr : List Syscall) : Nat :=
  (tr.filter fun s => match s with | Syscall.readFd _ _ => true | _ => false).length

/-! ### Pipe -/

/-- `Pipe` instance state: the two descriptors `pipe_[0]` (read end) and
`pipe_[1]` (write end); `-1` (`IPC_INVALID_FD`) marks a closed end. -/
structure PipeState where
  rfd : Int
  wfd : Int
  deriving Repr, DecidableEq

/-- `Pipe::close_r` (posix_ipc.cc lines 169-176): `::close` the read end
if it is open, then set it to `IPC_INVALID_FD` unconditionally. -/
def Pipe_close_r (st : PipeState) : PipeState × List Syscall :=
  if st.rfd ≥ 0 then ({ st with rfd := IPC_INVALID_FD }, [Syscall.closeFd st.rfd])
  else ({ st with rfd := IPC_INVALID_FD }, [])

/-- `Pipe::close_w` (posix_ipc.cc lines 178-185). -/
def Pipe_close_w (st : PipeState) : PipeState × List Syscall :=
  if st.wfd ≥ 0 then ({ st with wfd := IPC_INVALID_FD }, [Syscall.closeFd st.wfd])
  else ({ st with wfd := IPC_INVALID_FD }, [])

/-- `Pipe::close` (posix_ipc.cc lines 187-190): `close_w(); close_r();`. -/
def Pipe_close (st : PipeState) : PipeState × List Syscall :=
  let w := Pipe_close_w st
  let r := Pipe_close_r w.1
  (r.1, w.2 ++ r.2)

/-- `Pipe::write` (posix_ipc.cc lines 225-229): `-1` without any syscall
when the write end is closed, else delegate to `ipc::write`. -/
def Pipe_write (st : PipeState) (len : Nat) (wait : Int) (sel : SelectOutcome)
    (wres : Int) : Int × List Syscall :=
  if st.wfd < 0 then (-1, [])
  else ipc_write st.wfd len wait sel wres

/-- `Pipe::read` (posix_ipc.cc lines 231-235). -/
def Pipe_read (st : PipeState) (len : Nat) (wait : Int) (sel : SelectOutcome)
    (rres : Int) : Int × List Syscall :=
  if st.rfd < 0 then (-1, [])
  else ipc_read st.rfd len wait sel rres

/-! ### Fifo -/

/-- `Fifo` instance state: the descriptor `fd_`. -/
structure FifoState where
  fd : Int
  deriving Repr, DecidableEq

/-- `Fifo::Fifo` (posix_ipc.cc lines 237-245): reject a null path or an
invalid mode before any syscall (`throw std::invalid_argument`), then
`mkfifo(path, trans_mode(mode))`; throw on its failure.  `none` models a
thrown constructor; `mkfifoRes` is `mkfifo`'s return value. -/
def Fifo_ctor (pathNonNull : Bool) (mode : Char) (mkfifoRes : Int) :
    Option FifoState × List Syscall :=
  if ¬pathNonNull ∨ trans_mode mode < 0 then (none, [])
  else if mkfifoRes < 0 then (none, [Syscall.mkfifo (trans_mode mode)])
  else (some ⟨IPC_INVALID_FD⟩, [Syscall.mkfifo (trans_mode mode)])

/-- `Fifo::open` (posix_ipc.cc lines 251-266): fail if already open or the
mode is invalid (no syscall in either case); else `::open` and record the
descriptor, failing (descriptor reset to invalid) when `::open` fails. -/
def Fifo_open (st : FifoState) (mode : Char) (openRes : Int) :
    (Bool × FifoState) × List Syscall :=
  if st.fd ≥ 0 then ((false, st), [])
  else if trans_mode mode < 0 then ((false, st), [])
  else if openRes < 0 then
    ((false, ⟨IPC_INVALID_FD⟩), [Syscall.openPath (trans_mode mode)])
  else ((true, ⟨openRes⟩), [Syscall.openPath (trans_mode mode)])

/-- `Fifo::close` (posix_ipc.cc lines 268-273). -/
def Fifo_close (st : FifoState) : FifoState × List Syscall :=
  if st.fd ≥ 0 then (⟨IPC_INVALID_FD⟩, [Syscall.closeFd st.fd])
  else (st, [])

/-- `Fifo::write` (posix_ipc.cc lines 283-287). -/
def Fifo_write (st : FifoState) (len : Nat) (wait : Int) (sel : SelectOutcome)
    (wres : Int) : Int × List Syscall :=
  if st.fd < 0 then (-1, [])
  else ipc_write st.fd len wait sel wres

/-- `Fifo::read` (posix_ipc.cc lines 289-293). -/
def Fifo_read (st : FifoState) (len : Nat) (wait : Int) (sel : SelectOutcome)
    (rres : Int) : Int × List Syscall :=
  if st.fd < 0 then (-1, [])
  else ipc_read st.fd len wait sel rres

/-! ### Posix message queue -/

/-- `PosixMsgQueue` instance state: the queue descriptor `fd_` and the
configured maximum message size `maxmsg_`. -/
structure MqState where
  fd : Int
  maxmsg : Nat
  deriving Repr, DecidableEq

/-- `PosixMsgQueue::PosixMsgQueue` (posix_ipc.cc lines 295-308): calls
`mq_open(path, trans_mode(mode), 0666, &attr)` directly — the translated
mode, `-1` included, is passed as the `oflag` with no validity pre-check —
and throws when `mq_open` fails. -/
def PosixMsgQueue_ctor (mode : Char) (maxmsg : Nat) (mqOpenRes : Int) :
    Option MqState × List Syscall :=
  if mqOpenRes < 0 then (none, [Syscall.mq_open (trans_mode mode)])
  else (some ⟨mqOpenRes, maxmsg⟩, [Syscall.mq_open (trans_mode mode)])

/-- `PosixMsgQueue::close` (posix_ipc.cc lines 314-319). -/
def PosixMsgQueue_close (st : MqState) : MqState × List Syscall :=
  if st.fd ≥ 0 then ({ st with fd := IPC_INVALID_FD }, [Syscall.mq_close st.fd])
  else (st, [])

/-- `PosixMsgQueue::destroy` (posix_ipc.cc lines 321-324): `close()` then
`mq_unlink(path_)` unconditionally. -/
def PosixMsgQueue_destroy (st : MqState) : MqState × List Syscall :=
  let c := PosixMsgQueue_close st
  (c.1, c.2 ++ [Syscall.mq_unlink])

/-- The `timespec` the source builds for `mq_timedsend`/`mq_timedreceive`
(posix_ipc.cc lines 337-339, 361-363): `tv_sec = wait / 1000`,
`tv_nsec = wait % 1000 * 1000`.  The current clock time is never read. -/
def mq_deadline (wait : Int) : Int × Int :=
  (wait / 1000, wait % 1000 * 1000)

/-- `PosixMsgQueue::write` (posix_ipc.cc lines 326-347): `-1` without a
syscall on a closed handle; otherwise one `mq_send` (for `wait < 0`) or one
`mq_timedsend` (for `wait ≥ 0`) at priority `_SC_MQ_PRIO_MAX`, with the
caller's `len` passed through unchecked; the call returns `len` when the
send succeeds and `-1` when it fails (`sendRes < 0`). -/
def PosixMsgQueue_write (st : MqState) (len : Nat) (wait : Int)
    (sendRes : Int) : Int × List Syscall :=
  if st.fd < 0 then (-1, [])
  else if wait < 0 then
    ((if sendRes < 0 then -1 else Int.ofNat len),
     [Syscall.mq_send st.fd len SC_MQ_PRIO_MAX])
  else
    ((if sendRes < 0 then -1 else Int.ofNat len),
     [Syscall.mq_timedsend st.fd len SC_MQ_PRIO_MAX (mq_deadline wait)])

/-- `PosixMsgQueue::read` (posix_ipc.cc lines 349-367): `-1` without a
syscall on a closed handle or when `len > maxmsg_`; otherwise one
`mq_receive`/`mq_timedreceive` whose buffer-length argument is `maxmsg_`
(not `len`), returning the syscall's result `recvRes` verbatim. -/
def PosixMsgQueue_read (st : MqState) (len : Nat) (wait : Int)
    (recvRes : Int) : Int × List Syscall :=
  if st.fd < 0 then (-1, [])
  else if len > st.maxmsg then (-1, [])
  else if wait < 0 then (recvRes, [Syscall.mq_receive st.fd st.maxmsg])
  else (recvRes, [Syscall.mq_timedreceive st.fd st.maxmsg (mq_deadline wait)])

/-! ### Semaphores -/

/-- `NameSem` instance state: whether `sem_` is non-null. -/
structure NameSemState where
  semOpen : Bool
  deriving Repr, DecidableEq

/-- `NameSem::close` (posix_ipc.cc lines 403-409): `sem_close` and null the
handle only when it is non-null. -/
def NameSem_close (st : NameSemState) : NameSemState × List Syscall :=
  if st.semOpen then (⟨false⟩, [Syscall.sem_close])
  else (st, [])

/-- `NameSem::unlink` (posix_ipc.cc lines 411-414): `close()` then
`sem_unlink(name_)` unconditionally. -/
def NameSem_unlink (st : NameSemState) : NameSemState × List Syscall :=
  let c := NameSem_close st
  (c.1, c.2 ++ [Syscall.sem_unlink])

/-- `Sem` instance state: the in-place `sem_t` counter.  The source zeroes
the structure with `memset` in the constructor and in `close`; a count
models the POSIX semaphore value held inside it. -/
structure SemState where
  count : Nat
  deriving Repr, DecidableEq

/-- `Sem::Sem` (posix_ipc.cc lines 449-455): `sem_init(&sem_, pshared, 1)`
— the counter starts at 1. -/
def Sem_ctor : SemState := ⟨1⟩

/-- `Sem::close` (posix_ipc.cc lines 461-464): `sem_destroy(&sem_)`
unconditionally (its result is ignored, the function returns `void`), then
`memset` the structure back to all-zero bytes. -/
def Sem_close (_ : SemState) : SemState × List Syscall :=
  (⟨0⟩, [Syscall.sem_destroy])

/-- Modelled from the spec: the POSIX counting-semaphore operations
`sem_trywait`/`sem_wait`/`sem_post` live in libc/kernel, not in `src/`.
Per §4.6, `acquire(false)` is a non-blocking test-and-decrement: it
succeeds and decrements exactly when the count is positive. -/
def sem_trywait_m (c : Nat) : Bool × Nat :=
  if c = 0 then (false, 0) else (true, c - 1)

/-- Modelled from the spec: `sem_wait` blocks until the count is positive
and then decrements; when the count is already positive it succeeds
immediately.  The blocked case (count 0, waiting on another thread) is
outside this sequential model and is rendered as failure here; no claim
exercises it. -/
def sem_wait_m (c : Nat) : Bool × Nat :=
  if c = 0 then (false, 0) else (true, c - 1)

/-- Modelled from the spec: `sem_post` increments the count. -/
def sem_post_m (c : Nat) : Bool × Nat :=
  (true, c + 1)

/-- `Sem::sem_p` (posix_ipc.cc lines 466-472): `sem_trywait` when
non-blocking, `sem_wait` when blocking; true iff the call returned 0. -/
def Sem_sem_p (block : Bool) (st : SemState) : Bool × SemState :=
  if ¬block then
    let r := sem_trywait_m st.count
    (r.1, ⟨r.2⟩)
  else
    let r := sem_wait_m st.count
    (r.1, ⟨r.2⟩)

/-- `Sem::sem_v` (posix_ipc.cc lines 474-476): `sem_post`. -/
def Sem_sem_v (st : SemState) : Bool × SemState :=
  let r := sem_post_m st.count
  (r.1, ⟨r.2⟩)

/-! ### Posix shared memory -/

/-- `PosixShareMem` instance state: the mapped address `addr_` (`none` for
null), the descriptor `fd_`, whether `name_` is non-empty, and the mapped
length `len_`. -/
structure ShmState where
  addr : Option Nat
  fd : Int
  nameNonEmpty : Bool
  len : Nat
  deriving Repr, DecidableEq

/-- `PosixShareMem::PosixShareMem` (posix_ipc.cc lines 478-486): reject a
null name or invalid mode before any syscall (`throw`), then
`shm_open(name, trans_mode(mode), 0666)`, throwing on failure. -/
def PosixShareMem_ctor (nameNonNull : Bool) (mode : Char) (shmOpenRes : Int) :
    Option ShmState × List Syscall :=
  if ¬nameNonNull ∨ trans_mode mode < 0 then (none, [])
  else if shmOpenRes < 0 then (none, [Syscall.shm_open (trans_mode mode)])
  else (some ⟨none, shmOpenRes, true, 0⟩, [Syscall.shm_open (trans_mode mode)])

/-- `PosixShareMem::unmap` (posix_ipc.cc lines 543-547): `munmap(addr_,
len_)` when `addr_` is non-null.  The source never clears `addr_`, so the
instance state is unchanged. -/
def PosixShareMem_unmap (st : ShmState) : ShmState × List Syscall :=
  match st.addr with
  | some _ => (st, [Syscall.munmap])
  | none => (st, [])

/-- `PosixShareMem::destroy` (posix_ipc.cc lines 492-498): `unmap()`, then
`shm_unlink(name_)` when the name is non-empty. -/
def PosixShareMem_destroy (st : ShmState) : ShmState × List Syscall :=
  let u := PosixShareMem_unmap st
  if st.nameNonEmpty then (u.1, u.2 ++ [Syscall.shm_unlink])
  else (u.1, u.2)

/-! ## Claims -/

/-- C1: a guarded `ipc::write` first probes readiness under the caller's
timeout; a probe error yields `-1` with no write syscall, a probe timeout
yields `0` (distinct from error) with no write syscall, and a ready probe
issues exactly one write syscall whose result is returned verbatim
(negative included).  `ipc::read` is symmetric. -/
theorem guarded_io_contract (fd : Int) (len : Nat) (wait : Int)
    (sel : SelectOutcome) (wres rres : Int) :
    (((wait_write fd wait sel).1 < 0 →
        (ipc_write fd len wait sel wres).1 = -1 ∧
        countWrites (ipc_write fd len wait sel wres).2 = 0) ∧
     ((wait_write fd wait sel).1 = 0 →
        (ipc_write fd len wait sel wres).1 = 0 ∧
        countWrites (ipc_write fd len wait sel wres).2 = 0) ∧
     ((wait_write fd wait sel).1 = 1 →
        (ipc_write fd len wait sel wres).1 = wres ∧
        countWrites (ipc_write fd len wait sel wres).2 = 1)) ∧
    (((wait_read fd wait sel).1 < 0 →
        (ipc_read fd len wait sel rres).1 = -1 ∧
        countReads (ipc_read fd len wait sel rres).2 = 0) ∧
     ((wait_read fd wait sel).1 = 0 →
        (ipc_read fd len wait sel rres).1 = 0 ∧
        countReads (ipc_read fd len wait sel rres).2 = 0) ∧
     ((wait_read fd wait sel).1 = 1 →
        (ipc_read fd len wait sel rres).1 = rres ∧
        countReads (ipc_read fd len wait sel rres).2 = 1)) := by
  rcases sel with ⟨ret, isSet⟩
  unfold ipc_write ipc_read wait_write wait_read countWrites countReads
  dsimp only
  split_ifs <;> simp_all

/-- Witness for C1 at a concrete ready probe. -/
theorem guarded_io_contract_witness :
    (ipc_write 3 11 3000 ⟨1, true⟩ 11).1 = 11 ∧
    countWrites (ipc_write 3 11 3000 ⟨1, true⟩ 11).2 = 1 :=
  (guarded_io_contract 3 11 3000 ⟨1, true⟩ 11 0).1.2.2 (by decide)

/-- C5: the readiness probe passes no deadline for a negative timeout,
an immediate (zero) deadline for timeout `0`, and `wait / 1000` seconds
plus `wait % 1000 * 1000` microseconds for a positive timeout; its result
is `-1` exactly when `select` fails, `1` exactly when the probed
descriptor is in the signaled set, and `0` exactly when `select` returns
with no descriptor ready.  (`hset` is `select`'s contract: a descriptor
reported set implies a positive return.) -/
theorem readiness_probe_contract (fd wait : Int) (sel : SelectOutcome)
    (hset : sel.isSet = true → 0 < sel.ret) :
    (wait < 0 → select_timeout wait = none) ∧
    (wait = 0 → select_timeout wait = some (0, 0)) ∧
    (0 < wait → select_timeout wait = some (wait / 1000, wait % 1000 * 1000)) ∧
    (wait_write fd wait sel).2
      = [Syscall.select (fd + 1) Direction.write (select_timeout wait)] ∧
    (wait_read fd wait sel).2
      = [Syscall.select (fd + 1) Direction.read (select_timeout wait)] ∧
    ((wait_write fd wait sel).1 = -1 ↔ sel.ret < 0) ∧
    ((wait_write fd wait sel).1 = 1 ↔ sel.isSet = true) ∧
    ((wait_write fd wait sel).1 = 0 ↔ 0 ≤ sel.ret ∧ sel.isSet = false) ∧
    (wait_read fd wait sel).1 = (wait_write fd wait sel).1 := by
  rcases sel with ⟨ret, isSet⟩
  unfold wait_write wait_read select_timeout
  dsimp only at hset ⊢
  refine ⟨fun h => by simp [h],
          fun h => by simp [h],
          fun h => by simp [show ¬ wait < 0 from Int.not_lt.mpr h.le],
          rfl, rfl, ?_, ?_, ?_, rfl⟩
  · split_ifs <;> simp_all
  · cases isSet <;> split_ifs <;> simp_all <;> omega
  · cases isSet <;> split_ifs <;> simp_all

/-- Witness for C5 at a concrete ready outcome with a positive timeout. -/
theorem readiness_probe_contract_witness :
    (wait_write 5 1250 ⟨1, true⟩).1 = 1 ∧
    select_timeout 1250 = some (1, 250000) :=
  ⟨((readiness_probe_contract 5 1250 ⟨1, true⟩ (fun _ => by decide)).2.2.2.2.2.2.1).2 rfl,
   by decide⟩

/-- C7: on a never-opened or already-closed handle, `read`/`write` of
every descriptor-based primitive (Pipe, Fifo, PosixMsgQueue) returns `-1`
immediately, with an empty syscall trace (no syscall, no probe, hence no
blocking). -/
theorem closed_handle_io_rejected (pst : PipeState) (fst : FifoState)
    (mst : MqState) (len : Nat) (wait : Int) (sel : SelectOutcome) (res : Int)
    (hw : pst.wfd < 0) (hr : pst.rfd < 0) (hf : fst.fd < 0) (hm : mst.fd < 0) :
    Pipe_write pst len wait sel res = (-1, []) ∧
    Pipe_read pst len wait sel res = (-1, []) ∧
    Fifo_write fst len wait sel res = (-1, []) ∧
    Fifo_read fst len wait sel res = (-1, []) ∧
    PosixMsgQueue_write mst len wait res = (-1, []) ∧
    PosixMsgQueue_read mst len wait res = (-1, []) := by
  unfold Pipe_write Pipe_read Fifo_write Fifo_read PosixMsgQueue_write PosixMsgQueue_read
  split_ifs <;> simp_all

/-- Witness for C7 on concrete fully-closed instances. -/
theorem closed_handle_io_rejected_witness :
    Pipe_write ⟨-1, -1⟩ 4 100 ⟨1, true⟩ 4 = (-1, []) ∧
    Pipe_read ⟨-1, -1⟩ 4 100 ⟨1, true⟩ 4 = (-1, []) ∧
    Fifo_write ⟨-1⟩ 4 100 ⟨1, true⟩ 4 = (-1, []) ∧
    Fifo_read ⟨-1⟩ 4 100 ⟨1, true⟩ 4 = (-1, []) ∧
    PosixMsgQueue_write ⟨-1, 8⟩ 4 100 4 = (-1, []) ∧
    PosixMsgQueue_read ⟨-1, 8⟩ 4 100 4 = (-1, []) :=
  closed_handle_io_rejected ⟨-1, -1⟩ ⟨-1⟩ ⟨-1, 8⟩ 4 100 ⟨1, true⟩ 4
    (by decide) (by decide) (by decide) (by decide)

/-- C6: every release operation (`close` of Pipe/Fifo/PosixMsgQueue/
NameSem/Sem, `unmap` of PosixShareMem, `destroy` of PosixMsgQueue and
PosixShareMem, `unlink` of NameSem) is idempotent on the instance state: a
second call on the already-released instance leaves the state exactly as
the first call left it.  All of these return `void` in the source, so no
error can be reported. -/
theorem release_idempotent :
    (∀ st : PipeState, (Pipe_close (Pipe_close st).1).1 = (Pipe_close st).1) ∧
    (∀ st : FifoState, (Fifo_close (Fifo_close st).1).1 = (Fifo_close st).1) ∧
    (∀ st : MqState,
      (PosixMsgQueue_close (PosixMsgQueue_close st).1).1 = (PosixMsgQueue_close st).1) ∧
    (∀ st : MqState,
      (PosixMsgQueue_destroy (PosixMsgQueue_destroy st).1).1 = (PosixMsgQueue_destroy st).1) ∧
    (∀ st : NameSemState, (NameSem_close (NameSem_close st).1).1 = (NameSem_close st).1) ∧
    (∀ st : NameSemState, (NameSem_unlink (NameSem_unlink st).1).1 = (NameSem_unlink st).1) ∧
    (∀ st : SemState, (Sem_close (Sem_close st).1).1 = (Sem_close st).1) ∧
    (∀ st : ShmState,
      (PosixShareMem_unmap (PosixShareMem_unmap st).1).1 = (PosixShareMem_unmap st).1) ∧
    (∀ st : ShmState,
      (PosixShareMem_destroy (PosixShareMem_destroy st).1).1 = (PosixShareMem_destroy st).1) := by
  refine ⟨fun st => ?_, fun st => ?_, fun st => ?_, fun st => ?_, fun st => ?_,
          fun st => ?_, fun st => ?_, fun st => ?_, fun st => ?_⟩
  · simp only [Pipe_close, Pipe_close_w, Pipe_close_r]
    split_ifs <;> simp_all
  · simp only [Fifo_close]
    split_ifs <;> simp_all
  · simp only [PosixMsgQueue_close]
    split_ifs <;> simp_all
  · simp only [PosixMsgQueue_destroy, PosixMsgQueue_close]
    split_ifs <;> simp_all
  · simp only [NameSem_close]
    split_ifs <;> simp_all
  · simp only [NameSem_unlink, NameSem_close]
    split_ifs <;> simp_all
  · simp only [Sem_close]
  · simp only [PosixShareMem_unmap]
    rcases st with ⟨addr, fd, nm, ln⟩
    cases addr <;> rfl
  · simp only [PosixShareMem_destroy, PosixShareMem_unmap]
    rcases st with ⟨addr, fd, nm, ln⟩
    cases addr <;> split_ifs <;> rfl

/-- C9: the private semaphore starts with count 1; a blocking `sem_p`
succeeds immediately, a following non-blocking `sem_p` without an
intervening `sem_v` fails, and after one `sem_v` a further `sem_p`
succeeds.  (POSIX counter semantics of `sem_wait`/`sem_trywait`/`sem_post`
are modelled from the spec, being libc code outside this repository.) -/
theorem sem_initial_scenario :
    (Sem_sem_p true Sem_ctor).1 = true ∧
    (Sem_sem_p false (Sem_sem_p true Sem_ctor).2).1 = false ∧
    (Sem_sem_p true
      (Sem_sem_v (Sem_sem_p false (Sem_sem_p true Sem_ctor).2).2).2).1 = true := by
  decide

/-- C10: on an open queue, a read whose `len` is positive but below the
configured maximum message size still issues the receive syscall with
`maxmsg_` — not `len` — as the buffer-length argument. -/
theorem mq_read_buflen_is_maxmsg (st : MqState) (len : Nat) (wait : Int)
    (recvRes : Int) (hfd : 0 ≤ st.fd) (hpos : 0 < len) (hlt : len < st.maxmsg) :
    (PosixMsgQueue_read st len wait recvRes).2
      = [if wait < 0 then Syscall.mq_receive st.fd st.maxmsg
         else Syscall.mq_timedreceive st.fd st.maxmsg (mq_deadline wait)] ∧
    st.maxmsg ≠ len := by
  unfold PosixMsgQueue_read
  split_ifs <;> simp_all <;> omega

/-- Witness for C10: queue with `maxmsg_ = 8`, caller buffer `len = 4`. -/
theorem mq_read_buflen_is_maxmsg_witness :
    (PosixMsgQueue_read ⟨3, 8⟩ 4 (-1) 0).2 = [Syscall.mq_receive 3 8] ∧
    (8 : Nat) ≠ 4 := by
  have h := mq_read_buflen_is_maxmsg ⟨3, 8⟩ 4 (-1) 0 (by decide) (by decide) (by decide)
  simpa using h

/-- C3 counterexample: `'x'` is outside `{r,a,w,m,d}` (`trans_mode` maps
it to `-1`), yet constructing a `PosixMsgQueue` with mode `'x'` still
issues the `mq_open` syscall — with `-1` as its `oflag` — before failing,
so the rejection-before-syscall invariant does not hold for the queue. -/
theorem mq_ctor_syscall_on_bad_mode :
    trans_mode 'x' = -1 ∧
    (PosixMsgQueue_ctor 'x' 8 (-1)).2 = [Syscall.mq_open (-1)] ∧
    (PosixMsgQueue_ctor 'x' 8 (-1)).2 ≠ [] := by
  decide

/-- C3 (amended): for every mode character outside `{r,a,w,m,d}`:
`Fifo` construction, `Fifo::open`, and `PosixShareMem` construction fail
with no syscall issued; `PosixMsgQueue` construction instead passes the
failed translation (`-1`) directly to `mq_open` as its `oflag`, so that
one syscall is issued before the constructor can fail. -/
theorem bad_mode_rejection_amended (mode : Char) (pathNonNull : Bool)
    (maxmsg : Nat) (res : Int) (fst : FifoState)
    (hmode : ¬ (mode = 'r' ∨ mode = 'a' ∨ mode = 'w' ∨ mode = 'm' ∨ mode = 'd')) :
    Fifo_ctor pathNonNull mode res = (none, []) ∧
    Fifo_open fst mode res = ((false, fst), []) ∧
    PosixShareMem_ctor pathNonNull mode res = (none, []) ∧
    (PosixMsgQueue_ctor mode maxmsg res).2 = [Syscall.mq_open (-1)] := by
  have ht : trans_mode mode = -1 := by
    unfold trans_mode
    split_ifs <;> tauto
  refine ⟨?_, ?_, ?_, ?_⟩
  · unfold Fifo_ctor
    rw [ht]
    simp
  · unfold Fifo_open
    rw [ht]
    split_ifs <;> simp_all
  · unfold PosixShareMem_ctor
    rw [ht]
    simp
  · unfold PosixMsgQueue_ctor
    rw [ht]
    split_ifs <;> simp_all

/-- Witness for the amended C3 at mode `'x'`. -/
theorem bad_mode_rejection_amended_witness :
    Fifo_ctor true 'x' 0 = (none, []) ∧
    Fifo_open ⟨-1⟩ 'x' 0 = ((false, ⟨-1⟩), []) ∧
    PosixShareMem_ctor true 'x' 0 = (none, []) ∧
    (PosixMsgQueue_ctor 'x' 8 0).2 = [Syscall.mq_open (-1)] :=
  bad_mode_rejection_amended 'x' true 8 0 ⟨-1⟩ (by decide)

/-- C4 counterexample: on an open queue configured with `maxmsg_ = 8`, a
write of `len = 9 ≠ 8` is not rejected: the `mq_send` syscall is issued
with the oversized length, so the message does reach the kernel. -/
theorem mq_oversized_write_reaches_kernel :
    (9 : Nat) ≠ (8 : Nat) ∧
    (PosixMsgQueue_write ⟨3, 8⟩ 9 (-1) (-1)).2
      = [Syscall.mq_send 3 9 SC_MQ_PRIO_MAX] ∧
    (PosixMsgQueue_write ⟨3, 8⟩ 9 (-1) (-1)).2 ≠ [] := by
  decide

/-- C4 (amended): on an open queue, `read` rejects a buffer length above
the configured maximum message size with `-1` and no syscall (lengths
at or below it are accepted); `write` performs no length check at all —
the caller's `len`, oversized or not, is passed straight to the send
syscall, and rejecting an oversized message is left to the kernel. -/
theorem mq_length_check_amended (st : MqState) (len : Nat) (wait : Int)
    (res : Int) (hfd : 0 ≤ st.fd) :
    (len > st.maxmsg → PosixMsgQueue_read st len wait res = (-1, [])) ∧
    (PosixMsgQueue_write st len wait res).2
      = [if wait < 0 then Syscall.mq_send st.fd len SC_MQ_PRIO_MAX
         else Syscall.mq_timedsend st.fd len SC_MQ_PRIO_MAX (mq_deadline wait)] := by
  unfold PosixMsgQueue_read PosixMsgQueue_write
  constructor
  · intro hlen
    split_ifs <;> first | rfl | omega
  · split_ifs <;> first | rfl | omega

/-- Witness for the amended C4 on a queue with `maxmsg_ = 8`. -/
theorem mq_length_check_amended_witness :
    PosixMsgQueue_read ⟨3, 8⟩ 9 (-1) 0 = (-1, []) ∧
    (PosixMsgQueue_write ⟨3, 8⟩ 9 (-1) 0).2 = [Syscall.mq_send 3 9 SC_MQ_PRIO_MAX] := by
  have h := mq_length_check_amended ⟨3, 8⟩ 9 (-1) 0 (by decide)
  exact ⟨h.1 (by decide), by simpa using h.2⟩

/-- C8 counterexample: the priority the source passes to `mq_send` is the
constant `_SC_MQ_PRIO_MAX` (value 28 in glibc), not the minimum message
priority `0`: a blocking write on an open queue sends at priority 28. -/
theorem mq_send_priority_not_minimum :
    SC_MQ_PRIO_MAX ≠ 0 ∧
    (PosixMsgQueue_write ⟨3, 4⟩ 4 (-1) 0).2 = [Syscall.mq_send 3 4 28] := by
  decide

/-- C8 (amended): a `PosixMsgQueue::write` with `timeout < 0` on an open
queue issues exactly one blocking `mq_send` — at the fixed priority value
of the `_SC_MQ_PRIO_MAX` constant, not the minimum priority — and returns
`len` when the send succeeds and `-1` when it fails. -/
theorem mq_blocking_send_amended (st : MqState) (len : Nat) (wait sendRes : Int)
    (hfd : 0 ≤ st.fd) (hw : wait < 0) :
    (0 ≤ sendRes → (PosixMsgQueue_write st len wait sendRes).1 = Int.ofNat len) ∧
    (sendRes < 0 → (PosixMsgQueue_write st len wait sendRes).1 = -1) ∧
    (PosixMsgQueue_write st len wait sendRes).2
      = [Syscall.mq_send st.fd len SC_MQ_PRIO_MAX] := by
  unfold PosixMsgQueue_write
  split_ifs <;> simp_all <;> omega

/-- Witness for the amended C8: a successful blocking send of 4 bytes. -/
theorem mq_blocking_send_amended_witness :
    (PosixMsgQueue_write ⟨3, 4⟩ 4 (-1) 0).1 = 4 ∧
    (PosixMsgQueue_write ⟨3, 4⟩ 4 (-1) 0).2 = [Syscall.mq_send 3 4 SC_MQ_PRIO_MAX] := by
  have h := mq_blocking_send_amended ⟨3, 4⟩ 4 (-1) 0 (by decide) (by decide)
  exact ⟨by simpa using h.1 (by decide), h.2.2⟩

/-- C2 (code bug): the "absolute deadline" the source hands to
`mq_timedsend` is computed from the timeout alone — `wait / 1000` seconds
and `wait % 1000 * 1000` in the nanoseconds field — without ever reading
the current clock (and with the millisecond remainder scaled to
microseconds, not nanoseconds).  For `timeout = 1500` ms the deadline is
the fixed instant 1 s + 500000 ns after the epoch, not current time plus
1.5 s as the claim states; `mq_deadline` has no current-time input at all,
mirroring the source. -/
theorem mq_timedsend_deadline_is_relative :
    mq_deadline 1500 = (1, 500000) ∧
    (PosixMsgQueue_write ⟨3, 8⟩ 8 1500 0).2
      = [Syscall.mq_timedsend 3 8 SC_MQ_PRIO_MAX (1, 500000)] ∧
    (PosixMsgQueue_write ⟨3, 8⟩ 8 1500 0).1 = 8 := by
  decide
